import Mathlib

/-
Shallow embedding of the subscription/payment lifecycle and channel-catalog
state machine of `src/bot.py` (class PremiumBot), together with proofs about
the claims of the specification.

Conventions of the embedding:
* The SQLite tables become lists of records inside `Store`; an `INSERT`
  appends to the list (rowid/creation order), an `UPDATE ... WHERE` becomes a
  `List.map` that rewrites exactly the rows matched by the WHERE clause.
* `datetime.now()` becomes a natural-number timestamp passed to the handler;
  one logical timestamp is used per handler invocation.  `timedelta(days=30)`
  becomes `+ thirtyDays` on that clock (the clock counts days).
* Telegram API calls (`send_message`, `send_photo`, `edit_message_text`)
  become `Event` values collected in a list; calls that the code wraps in
  `try/except` are given a boolean outcome supplied by an oracle argument
  (`grantFails`, `sendOk`, `MemberQuery`, `Except` for the invite link).
* Python strings are modelled as `String`; the string operations the code
  uses (`split`, `strip`, `lower`, `replace`) are re-implemented structurally
  over `List Char` so that every definition reduces in the kernel.
-/

namespace PremiumBot

/-- Status column of the `pending_payments` table
(`status IN ('pending', 'submitted', 'approved', 'rejected')`). -/
inductive PayStatus
  | pending
  | submitted
  | approved
  | rejected
deriving DecidableEq

/-- A row of the `channels` table. -/
structure Channel where
  channelKey : String
  channelName : String
  channelId : String
  price : ℚ
  demoLink : String
  inviteLink : String
  isActive : Bool
  createdDate : ℕ
  createdBy : ℕ
deriving DecidableEq

/-- A row of the `subscriptions` table. -/
structure Subscription where
  userId : ℕ
  channelKey : String
  startDate : ℕ
  endDate : ℕ
  isActive : Bool
  paymentConfirmed : Bool
  invoiceSent : Bool
deriving DecidableEq

/-- A row of the `pending_payments` table. -/
structure PendingPayment where
  userId : ℕ
  channelKey : String
  amount : ℚ
  paymentProof : Option String
  timestamp : ℕ
  status : PayStatus
deriving DecidableEq

/-- A row of the `server_plans` table. -/
structure ServerPlan where
  planName : String
  price : ℚ
  includedChannels : String
  isActive : Bool
deriving DecidableEq

/-- The SQLite database `premium_bot.db` (the `users` table plays no role in
any claim and is omitted).  Lists are kept in rowid (insertion) order. -/
structure Store where
  channels : List Channel
  subscriptions : List Subscription
  pendingPayments : List PendingPayment
  serverPlans : List ServerPlan
deriving DecidableEq

/-- The per-user `context.user_data` dictionary of the purchase flow: the only
key the purchase workflow uses is `'awaiting_payment'`. -/
structure Session where
  awaitingPayment : Option String
deriving DecidableEq

/-! ### String helpers (structural re-implementations of the Python string
operations used by the source, so that everything reduces in the kernel) -/

/-- Python `str.split(sep)` on a list of characters:
`"a_b".split('_') = ["a","b"]`, `"".split('_') = [""]`. -/
def splitChars (sep : Char) : List Char → List (List Char)
  | [] => [[]]
  | c :: rest =>
    if c = sep then [] :: splitChars sep rest
    else
      match splitChars sep rest with
      | [] => [[c]]
      | g :: gs => (c :: g) :: gs

/-- Python `data.split('_')` as a list of strings. -/
def pySplitUnderscore (s : String) : List String :=
  (splitChars '_' s.toList).map String.mk

/-- Everything after the first occurrence of `sep`; models the second
component of Python `data.split(sep, 1)`. -/
def afterFirstSep (sep : Char) : List Char → List Char
  | [] => []
  | c :: rest => if c = sep then rest else afterFirstSep sep rest

/-- Python `str.strip()` (both-ends whitespace removal). -/
def pyStrip (s : String) : String :=
  String.mk (((s.toList.dropWhile Char.isWhitespace).reverse.dropWhile
    Char.isWhitespace).reverse)

/-! ### Catalog reads -/

/-- `get_channels_from_db`: `SELECT * FROM channels WHERE is_active = 1`, in
table (creation) order.  The Python function builds a dict keyed by
`channel_key`; since `channel_key` is UNIQUE the dict and the row list carry
the same data, so the embedding keeps the list. -/
def activeChannels (st : Store) : List Channel :=
  st.channels.filter (fun c => c.isActive)

/-- Dictionary lookup `channels[plan_key]` on the active-channel dict. -/
def lookupChannel (st : Store) (key : String) : Option Channel :=
  (activeChannels st).find? (fun c => c.channelKey == key)

/-- `SELECT * FROM server_plans WHERE is_active = 1 LIMIT 1`. -/
def activeServerPlan (st : Store) : Option ServerPlan :=
  (st.serverPlans.filter (fun p => p.isActive)).head?

/-- An offer as presented to the buyer (spec: `{key, name, price, demo_link?}`;
the spec's reserved key `all-access` is the code's literal `server_premium`). -/
structure Offer where
  key : String
  name : String
  price : ℚ
  demoLink : Option String
deriving DecidableEq

/-- The offer carried by a channel row (the code treats an empty `demo_link`
string as absent). -/
def channelOffer (c : Channel) : Offer :=
  { key := c.channelKey, name := c.channelName, price := c.price,
    demoLink := if c.demoLink = "" then none else some c.demoLink }

/-- The synthetic all-access offer built from the active server plan. -/
def serverPremiumOffer (p : ServerPlan) : Offer :=
  { key := "server_premium", name := p.planName, price := p.price,
    demoLink := none }

/-- Callback data emitted by `get_plans_keyboard` for a channel button. -/
def planCallbackData (c : Channel) : String :=
  "plan_" ++ c.channelKey

/-- The offers carried by `get_plans_keyboard`: one button per active channel
(callback `plan_<key>`), then the server-premium button when an active server
plan exists; the trailing back-to-menu button carries no offer. -/
def keyboardOffers (st : Store) : List Offer :=
  (activeChannels st).map channelOffer ++
    (match activeServerPlan st with
     | some p => [serverPremiumOffer p]
     | none => [])

/-- `show_plans`: when the active-channel dict is empty it replies
"No Premium Plans Available" and returns before rendering any listing or
keyboard — even when the server plan is active; otherwise it renders the
channels and then the server plan, with the plans keyboard attached. -/
def showPlansOffers (st : Store) : List Offer :=
  if (activeChannels st).isEmpty then [] else keyboardOffers st

/-! ### Callback decoding and plan selection -/

/-- `query.data.split('_')[1]` in `plan_selected`: Python splits on every
underscore and takes the element at index 1. -/
def splitSecondToken (data : String) : String :=
  (pySplitUnderscore data).getD 1 ""

/-- Outcome of `plan_selected`. -/
inductive PlanSelection
  | serverPremiumDetails (p : ServerPlan)
  | channelDetails (c : Channel)
  | unavailable
deriving DecidableEq

/-- `plan_selected`: `plan_key := query.data.split('_')[1]`; the
server-premium case requires `plan_key == 'server'` and more than two
tokens; otherwise `plan_key` is looked up in the active-channel dict and a
miss replies "This plan is no longer available." -/
def planSelected (st : Store) (data : String) : PlanSelection :=
  let planKey := splitSecondToken data
  if planKey = "server" ∧ (pySplitUnderscore data).length > 2 then
    match activeServerPlan st with
    | some p => PlanSelection.serverPremiumDetails p
    | none => PlanSelection.unavailable
  else
    match lookupChannel st planKey with
    | some c => PlanSelection.channelDetails c
    | none => PlanSelection.unavailable

/-- `query.data.split('_', 1)[1]` in `initiate_purchase`: everything after the
first underscore (the `purchase_` prefix is removed, keys keep their own
underscores). -/
def purchasePlanData (data : String) : String :=
  String.mk (afterFirstSep '_' data.toList)

/-! ### Messaging events -/

/-- One value per outbound message call site that the claims talk about. -/
inductive Event
  | proofAcceptedReply
  | invalidPlanReply
  | adminProofNotice (adminId : ℕ) (payUserId : ℕ) (planKey : String)
  | invoiceMessage (userId : ℕ) (planKey : String)
  | rejectedNotice (userId : ℕ) (reason : String)
deriving DecidableEq

/-! ### Purchase workflow -/

/-- Outcome of `initiate_purchase`. -/
inductive PurchaseOutcome
  | paymentInstructions (planName : String) (planPrice : ℚ)
  | unavailable
  | crashed
deriving DecidableEq

/-- `initiate_purchase`: strips the `purchase_` prefix with `split('_', 1)[1]`;
for `server_premium` it inserts a `pending_payments` row priced from the active
server plan (when no active plan exists the insert is skipped and the later
use of the unbound `plan_name` raises, modelled as `crashed` with no state
change); for a channel key it re-validates the key against the active dict,
replying "no longer available" on a miss, and otherwise inserts the row.  On
the successful paths, `context.user_data['awaiting_payment'] = plan_data` is
recorded at the end. -/
def initiatePurchase (st : Store) (sess : Session) (now userId : ℕ)
    (data : String) : Store × Session × PurchaseOutcome :=
  let planData := purchasePlanData data
  if planData = "server_premium" then
    match activeServerPlan st with
    | some p =>
        let pay : PendingPayment :=
          { userId := userId, channelKey := "server_premium", amount := p.price,
            paymentProof := none, timestamp := now, status := PayStatus.pending }
        ({ st with pendingPayments := st.pendingPayments ++ [pay] },
         { sess with awaitingPayment := some planData },
         PurchaseOutcome.paymentInstructions p.planName p.price)
    | none => (st, sess, PurchaseOutcome.crashed)
  else
    match lookupChannel st planData with
    | none => (st, sess, PurchaseOutcome.unavailable)
    | some c =>
        let pay : PendingPayment :=
          { userId := userId, channelKey := planData, amount := c.price,
            paymentProof := none, timestamp := now, status := PayStatus.pending }
        ({ st with pendingPayments := st.pendingPayments ++ [pay] },
         { sess with awaitingPayment := some planData },
         PurchaseOutcome.paymentInstructions c.channelName c.price)

/-- The attachment of a photo/document message (the handler is registered for
`filters.PHOTO | filters.Document.ALL`, so a file id is always present:
`photo[-1].file_id` or `document.file_id`). -/
inductive ProofAttachment
  | photo (fileId : String)
  | document (fileId : String)
deriving DecidableEq

/-- the file id carried by the attachment -/
def ProofAttachment.fileId : ProofAttachment → String
  | ProofAttachment.photo f => f
  | ProofAttachment.document f => f

/-- `UPDATE pending_payments SET payment_proof = ?, status = 'submitted'
WHERE user_id = ? AND channel_key = ? AND status = 'pending'`: every matching
`pending` row is promoted to `submitted`. -/
def submitProofRows (pays : List PendingPayment) (userId : ℕ)
    (planKey fileId : String) : List PendingPayment :=
  pays.map (fun p =>
    if p.userId = userId ∧ p.channelKey = planKey ∧ p.status = PayStatus.pending
    then { p with paymentProof := some fileId, status := PayStatus.submitted }
    else p)

/-- `handle_payment_proof`: returns immediately when `'awaiting_payment'` is
not in `context.user_data`; for a channel key that is no longer in the active
dict it replies "Invalid plan" and returns without touching the store or the
marker (the `server_premium` branch only reads the plan for display text and
proceeds either way); otherwise it promotes the matching `pending` rows,
replies to the buyer, sends each configured admin the proof photo, and
deletes the `'awaiting_payment'` marker. -/
def handlePaymentProof (adminIds : List ℕ) (st : Store) (sess : Session)
    (userId : ℕ) (att : ProofAttachment) : Store × Session × List Event :=
  match sess.awaitingPayment with
  | none => (st, sess, [])
  | some planKey =>
    if planKey = "server_premium" ∨ (lookupChannel st planKey).isSome then
      ({ st with pendingPayments :=
          submitProofRows st.pendingPayments userId planKey att.fileId },
       { sess with awaitingPayment := none },
       Event.proofAcceptedReply ::
         adminIds.map (fun a => Event.adminProofNotice a userId planKey))
    else
      (st, sess, [Event.invalidPlanReply])

/-! ### Admin decisions -/

/-- The fixed subscription term: `timedelta(days=30)` on a clock counted in
days. -/
def thirtyDays : ℕ := 30

/-- `UPDATE pending_payments SET status = 'approved'
WHERE user_id = ? AND channel_key = ? AND status = 'submitted'` (matching
zero rows is a silent no-op). -/
def approveSubmittedRows (pays : List PendingPayment) (userId : ℕ)
    (planKey : String) : List PendingPayment :=
  pays.map (fun p =>
    if p.userId = userId ∧ p.channelKey = planKey ∧
        p.status = PayStatus.submitted
    then { p with status := PayStatus.approved }
    else p)

/-- `UPDATE pending_payments SET status = 'rejected'
WHERE user_id = ? AND channel_key = ? AND status = 'submitted'`. -/
def rejectSubmittedRows (pays : List PendingPayment) (userId : ℕ)
    (planKey : String) : List PendingPayment :=
  pays.map (fun p =>
    if p.userId = userId ∧ p.channelKey = planKey ∧
        p.status = PayStatus.submitted
    then { p with status := PayStatus.rejected }
    else p)

/-- `send_invoice_with_links`: for `server_premium` it returns early when no
active server plan exists, for a channel key when the key is not in the active
dict; the outbound message is wrapped in `try/except` (`sendOk`), and only
after a successful send does
`UPDATE subscriptions SET invoice_sent = 1
WHERE user_id = ? AND channel_key = ? AND is_active = 1` run. -/
def sendInvoiceWithLinks (st : Store) (sendOk : Bool) (userId : ℕ)
    (planKey : String) : Store × List Event :=
  let planOk :=
    if planKey = "server_premium" then (activeServerPlan st).isSome
    else (lookupChannel st planKey).isSome
  if planOk then
    if sendOk then
      ({ st with subscriptions := st.subscriptions.map (fun s =>
           if s.userId = userId ∧ s.channelKey = planKey ∧ s.isActive then
             { s with invoiceSent := true }
           else s) },
       [Event.invoiceMessage userId planKey])
    else (st, [])
  else (st, [])

/-- Outcome of `approve_payment`. -/
inductive ApproveOutcome
  | unauthorized
  | planNotFound
  | approved (grants : List (String × Bool))
deriving DecidableEq

/-- `approve_payment` for `/approve <user_id> <plan_key>`: after the admin
check it looks the plan up (server plan for `server_premium`, active-channel
dict otherwise) and reports "not found" on a miss; on a hit it unconditionally
inserts a `subscriptions` row (`is_active = 1`, `payment_confirmed = 1`,
`end_date = now + 30 days`), runs the membership-grant loop — one
`unban_chat_member` per active channel for `server_premium`, each wrapped in
its own `try/except` so one failure is only logged and the loop continues; a
single grant for a channel plan — then updates the matching `submitted`
payment rows and sends the invoice.  No pending-payment status is ever
checked before the insert. -/
def approvePayment (adminIds : List ℕ) (actor : ℕ) (st : Store)
    (grantFails : String → Bool) (sendOk : Bool) (now userId : ℕ)
    (planKey : String) : Store × ApproveOutcome :=
  if actor ∈ adminIds then
    if planKey = "server_premium" then
      match activeServerPlan st with
      | none => (st, ApproveOutcome.planNotFound)
      | some _ =>
        let sub : Subscription :=
          { userId := userId, channelKey := "server_premium", startDate := now,
            endDate := now + thirtyDays, isActive := true,
            paymentConfirmed := true, invoiceSent := false }
        let st1 := { st with subscriptions := st.subscriptions ++ [sub] }
        let grants := (activeChannels st1).map
          (fun c => (c.channelKey, !grantFails c.channelKey))
        let st2 := { st1 with pendingPayments :=
          approveSubmittedRows st1.pendingPayments userId planKey }
        ((sendInvoiceWithLinks st2 sendOk userId planKey).1,
         ApproveOutcome.approved grants)
    else
      match lookupChannel st planKey with
      | none => (st, ApproveOutcome.planNotFound)
      | some c =>
        let sub : Subscription :=
          { userId := userId, channelKey := planKey, startDate := now,
            endDate := now + thirtyDays, isActive := true,
            paymentConfirmed := true, invoiceSent := false }
        let st1 := { st with subscriptions := st.subscriptions ++ [sub] }
        let grants := [(c.channelKey, !grantFails c.channelKey)]
        let st2 := { st1 with pendingPayments :=
          approveSubmittedRows st1.pendingPayments userId planKey }
        ((sendInvoiceWithLinks st2 sendOk userId planKey).1,
         ApproveOutcome.approved grants)
  else (st, ApproveOutcome.unauthorized)

/-- Outcome of `reject_payment`. -/
inductive RejectOutcome
  | unauthorized
  | rejectedOk
deriving DecidableEq

/-- `reject_payment` for `/reject <user_id> <plan_key> [reason]`: after the
admin check it updates the matching `submitted` rows (possibly zero — the
code never checks that a matching submitted payment exists), notifies the
buyer with the given reason or the default "Payment verification failed",
and replies success regardless. -/
def rejectPayment (adminIds : List ℕ) (actor : ℕ) (st : Store) (userId : ℕ)
    (planKey : String) (reason : Option String) :
    Store × RejectOutcome × List Event :=
  if actor ∈ adminIds then
    let r := reason.getD "Payment verification failed"
    ({ st with pendingPayments :=
        rejectSubmittedRows st.pendingPayments userId planKey },
     RejectOutcome.rejectedOk, [Event.rejectedNotice userId r])
  else (st, RejectOutcome.unauthorized, [])

/-! ### Channel onboarding workflow -/

/-- The `ConversationHandler` states `CHANNEL_NAME, CHANNEL_PRICE,
CHANNEL_DEMO, CHANNEL_FORWARD = range(4)` plus `ConversationHandler.END`. -/
inductive ConvState
  | channelName
  | channelPrice
  | channelDemo
  | channelForward
  | ended
deriving DecidableEq

/-- The onboarding fields collected in `context.user_data`. -/
structure UserData where
  channelName : Option String
  channelPrice : Option ℚ
  channelDemo : Option String
deriving DecidableEq

/-- decimal value of a digit list (most significant first) -/
def digitsToNat (cs : List Char) : ℕ :=
  cs.foldl (fun n c => 10 * n + (c.toNat - Char.toNat '0')) 0

/-- Python `float()` on an unsigned decimal literal: digits with at most one
decimal point and at least one digit overall (`"1"`, `"1.5"`, `".5"`,
`"1."`). -/
def parseUnsignedFloat (cs : List Char) : Option ℚ :=
  match splitChars '.' cs with
  | [ip] =>
      if ip ≠ [] ∧ ip.all Char.isDigit then some (digitsToNat ip : ℚ)
      else none
  | [ip, fp] =>
      if (ip ≠ [] ∨ fp ≠ []) ∧ ip.all Char.isDigit ∧ fp.all Char.isDigit then
        some ((digitsToNat ip : ℚ) + (digitsToNat fp : ℚ) / (10 : ℚ) ^ fp.length)
      else none
  | _ => none

/-- Python `float()` on a plain decimal literal with an optional sign
(exponent forms, `inf` and `nan` are outside the inputs this development
evaluates; `float()` accepts any real number, with no positivity check). -/
def pyFloat (s : String) : Option ℚ :=
  match s.toList with
  | '+' :: rest => parseUnsignedFloat rest
  | '-' :: rest => (parseUnsignedFloat rest).map (fun q => -q)
  | cs => parseUnsignedFloat cs

/-- `add_channel_price`: `float(update.message.text.strip())`; a `ValueError`
re-prompts and returns `CHANNEL_PRICE`; any successfully parsed number is
stored and the dialogue returns `CHANNEL_DEMO` — the code performs no
positivity (or any sign) check on the parsed value. -/
def addChannelPrice (ud : UserData) (text : String) : UserData × ConvState :=
  match pyFloat (pyStrip text) with
  | some price => ({ ud with channelPrice := some price }, ConvState.channelDemo)
  | none => (ud, ConvState.channelPrice)

/-- `channel_key = channel_name.lower().replace(' ', '_').replace('-', '_')`
(ASCII lowering, as exercised by the inputs in this development). -/
def channelKeyOf (name : String) : String :=
  String.mk (((name.toList.map Char.toLower).map
    (fun c => if c = ' ' then '_' else c)).map
    (fun c => if c = '-' then '_' else c))

/-- The forwarded-message event: `update.message.forward_from_chat` is the
origin chat id when the message was forwarded from a chat. -/
structure ForwardEvent where
  forwardFromChat : Option Int
deriving DecidableEq

/-- Result of `context.bot.get_chat_member(channel_id, bot_id)`. -/
inductive MemberQuery
  | ok (isAdministrator : Bool)
  | apiError
deriving DecidableEq

/-- Outcome of `add_channel_forward`. -/
inductive ForwardResult
  | stayNotForwarded
  | stayNotAdmin
  | stayNoAccess
  | stayInviteFailed (err : String)
  | created (c : Channel)
  | duplicateKey (key : String)
deriving DecidableEq

/-- `add_channel_forward`: rejects (and stays in `CHANNEL_FORWARD`) when the
message carries no `forward_from_chat`, when `get_chat_member` raises
(`BadRequest`/`Forbidden`), when the bot's status is not `ADMINISTRATOR`, or
when `create_chat_invite_link` fails; otherwise it derives the key,
`INSERT INTO channels ...`, and a `sqlite3.IntegrityError` on the UNIQUE
`channel_key` column reports the collision and inserts nothing.  Both the
success and the conflict path clear `user_data` and end the conversation. -/
def addChannelForward (st : Store) (now : ℕ) (actor : ℕ) (ud : UserData)
    (fwd : ForwardEvent) (memberQ : MemberQuery)
    (invite : Except String String) : Store × ForwardResult × ConvState :=
  match fwd.forwardFromChat with
  | none => (st, ForwardResult.stayNotForwarded, ConvState.channelForward)
  | some chatId =>
    match memberQ with
    | MemberQuery.apiError =>
        (st, ForwardResult.stayNoAccess, ConvState.channelForward)
    | MemberQuery.ok isAdmin =>
      if !isAdmin then
        (st, ForwardResult.stayNotAdmin, ConvState.channelForward)
      else
        match invite with
        | Except.error e =>
            (st, ForwardResult.stayInviteFailed e, ConvState.channelForward)
        | Except.ok inviteUrl =>
          let name := ud.channelName.getD ""
          let price := ud.channelPrice.getD 0
          let demo := ud.channelDemo.getD ""
          let key := channelKeyOf name
          if st.channels.any (fun c => c.channelKey == key) then
            (st, ForwardResult.duplicateKey key, ConvState.ended)
          else
            let c : Channel :=
              { channelKey := key, channelName := name,
                channelId := toString chatId, price := price, demoLink := demo,
                inviteLink := inviteUrl, isActive := true, createdDate := now,
                createdBy := actor }
            ({ st with channels := st.channels ++ [c] },
             ForwardResult.created c, ConvState.ended)

/-! ### Row-counting helpers used by the claims -/

/-- the subscription rows for a `(user, plan)` pair -/
def subsFor (st : Store) (userId : ℕ) (planKey : String) : List Subscription :=
  st.subscriptions.filter
    (fun s => s.userId == userId && s.channelKey == planKey)

/-- number of `submitted` pending-payment rows for a `(user, plan)` pair -/
def submittedCount (st : Store) (userId : ℕ) (planKey : String) : ℕ :=
  (st.pendingPayments.filter (fun p =>
    p.userId == userId && p.channelKey == planKey &&
      p.status == PayStatus.submitted)).length

/-- number of `pending` pending-payment rows for a `(user, plan)` pair -/
def pendingCount (st : Store) (userId : ℕ) (planKey : String) : ℕ :=
  (st.pendingPayments.filter (fun p =>
    p.userId == userId && p.channelKey == planKey &&
      p.status == PayStatus.pending)).length

/-- number of channel rows carrying a given key -/
def channelKeyCount (st : Store) (key : String) : ℕ :=
  (st.channels.filter (fun c => c.channelKey == key)).length

/-- The plan key names a purchasable offer: the literal `server_premium` with
an active server plan, or the key of an active channel. -/
def offerExists (st : Store) (planKey : String) : Bool :=
  if planKey = "server_premium" then (activeServerPlan st).isSome
  else (lookupChannel st planKey).isSome

/-- One onboarding run that has already collected `(name, price, demo)` and
now receives a valid channel forward: the forward carries an origin chat, the
bot's membership status is administrator, and the invite link is minted. -/
def onboardOnce (st : Store) (now actor : ℕ) (name : String) (price : ℚ)
    (demo : String) (chatId : Int) (inviteUrl : String) :
    Store × ForwardResult × ConvState :=
  addChannelForward st now actor
    { channelName := some name, channelPrice := some price,
      channelDemo := some demo }
    { forwardFromChat := some chatId } (MemberQuery.ok true)
    (Except.ok inviteUrl)

/-! ### Concrete fixtures -/

/-- an active channel whose key has no underscore -/
def simpleChannel : Channel :=
  { channelKey := "vip", channelName := "VIP", channelId := "-100",
    price := 200, demoLink := "", inviteLink := "link1", isActive := true,
    createdDate := 0, createdBy := 9 }

/-- the "VIP Content" channel of the spec scenario, key `vip_content` -/
def vipChannel : Channel :=
  { channelKey := "vip_content", channelName := "VIP Content",
    channelId := "-101", price := 200, demoLink := "", inviteLink := "link2",
    isActive := true, createdDate := 0, createdBy := 9 }

/-- the seeded `Server Premium` server-plan row (price 599, active) -/
def defaultServerPlan : ServerPlan :=
  { planName := "Server Premium", price := 599, includedChannels := "[]",
    isActive := true }

/-- store with the `vip` channel and the active server plan -/
def baseStore : Store :=
  { channels := [simpleChannel], subscriptions := [], pendingPayments := [],
    serverPlans := [defaultServerPlan] }

/-- store with the `vip_content` channel and the active server plan -/
def vipStore : Store :=
  { channels := [vipChannel], subscriptions := [], pendingPayments := [],
    serverPlans := [defaultServerPlan] }

/-- store with zero channels but an active server plan -/
def noChannelStore : Store :=
  { channels := [], subscriptions := [], pendingPayments := [],
    serverPlans := [defaultServerPlan] }

/-- first of two active channels for the all-access grant-loop scenario -/
def alphaChannel : Channel :=
  { channelKey := "alpha", channelName := "Alpha", channelId := "-200",
    price := 100, demoLink := "", inviteLink := "linkA", isActive := true,
    createdDate := 0, createdBy := 9 }

/-- second of two active channels for the all-access grant-loop scenario -/
def betaChannel : Channel :=
  { channelKey := "beta", channelName := "Beta", channelId := "-201",
    price := 150, demoLink := "", inviteLink := "linkB", isActive := true,
    createdDate := 1, createdBy := 9 }

/-- store with two active channels and the active server plan -/
def twoChannelStore : Store :=
  { channels := [alphaChannel, betaChannel], subscriptions := [],
    pendingPayments := [], serverPlans := [defaultServerPlan] }

/-- user 1 checks out the `vip` channel -/
def c1AfterPurchase : Store × Session × PurchaseOutcome :=
  initiatePurchase baseStore { awaitingPayment := none } 10 1 "purchase_vip"

/-- user 1 then submits a payment screenshot -/
def c1AfterProof : Store × Session × List Event :=
  handlePaymentProof [9] c1AfterPurchase.1 c1AfterPurchase.2.1 1
    (ProofAttachment.photo "proof1")

/-- admin 9 approves `(1, vip)` once -/
def c1AfterFirstApprove : Store × ApproveOutcome :=
  approvePayment [9] 9 c1AfterProof.1 (fun _ => false) true 20 1 "vip"

/-- store holding a single already-`approved` payment row for `(1, vip)` -/
def approvedOnlyStore : Store :=
  { channels := [simpleChannel], subscriptions := [],
    pendingPayments :=
      [{ userId := 1, channelKey := "vip", amount := 200,
         paymentProof := some "p", timestamp := 5,
         status := PayStatus.approved }],
    serverPlans := [defaultServerPlan] }

/-- user 1 checks out the `vip` channel (first of two back-to-back checkouts) -/
def c5AfterFirstPurchase : Store × Session × PurchaseOutcome :=
  initiatePurchase baseStore { awaitingPayment := none } 10 1 "purchase_vip"

/-- user 1 checks out the same channel again before submitting any proof -/
def c5AfterSecondPurchase : Store × Session × PurchaseOutcome :=
  initiatePurchase c5AfterFirstPurchase.1 c5AfterFirstPurchase.2.1 11 1
    "purchase_vip"

/-- user 1 now submits one payment screenshot -/
def c5AfterProof : Store × Session × List Event :=
  handlePaymentProof [9] c5AfterSecondPurchase.1 c5AfterSecondPurchase.2.1 1
    (ProofAttachment.photo "p")

/-! ### Closed counterexample / failing-input theorems -/

/-- Claim C1, counterexample: after checkout, proof submission and one
approval, no `submitted` pending payment remains for `(1, vip)` (it is already
`approved`), yet re-running `/approve 1 vip` succeeds again and a second
Subscription row appears — instead of the claimed StateError with the
Subscription count unchanged. -/
theorem C1_counterexample :
    submittedCount c1AfterFirstApprove.1 1 "vip" = 0 ∧
    (subsFor c1AfterFirstApprove.1 1 "vip").length = 1 ∧
    (approvePayment [9] 9 c1AfterFirstApprove.1 (fun _ => false) true 30 1
        "vip").2 = ApproveOutcome.approved [("vip", true)] ∧
    (subsFor (approvePayment [9] 9 c1AfterFirstApprove.1 (fun _ => false) true
        30 1 "vip").1 1 "vip").length = 2 := by
  decide

/-- Claim C2, failing input: `get_plans_keyboard` encodes the active
`vip_content` channel as callback `plan_vip_content`, but `plan_selected`
splits on every underscore and takes index 1, recovering only `vip`, so the
selection resolves to "no longer available" rather than the channel's offer;
`initiate_purchase`, by contrast, does split on the first delimiter only. -/
theorem C2_underscore_key_lost :
    planCallbackData vipChannel = "plan_vip_content" ∧
    splitSecondToken "plan_vip_content" = "vip" ∧
    purchasePlanData "purchase_vip_content" = "vip_content" ∧
    planSelected vipStore "plan_vip_content" = PlanSelection.unavailable := by
  decide

/-- Claim C3, counterexample: with zero active channels and an active
all-access (server-premium) plan, `show_plans` returns the empty listing —
the synthetic all-access offer is not offered, contrary to the claim. -/
theorem C3_counterexample :
    activeServerPlan noChannelStore = some defaultServerPlan ∧
    showPlansOffers noChannelStore = [] ∧
    showPlansOffers noChannelStore ≠ [serverPremiumOffer defaultServerPlan] := by
  decide

/-- Claim C5, counterexample: two checkouts for `(1, vip)` followed by a
single proof submission leave two `submitted` pending-payment rows for the
same user and plan — the claimed at-most-one invariant fails at a reachable
state. -/
theorem C5_counterexample :
    submittedCount c5AfterProof.1 1 "vip" = 2 := by
  decide

/-- Claim C7, counterexample: with the only matching payment row already
`approved` (no `submitted` row), `/reject 1 vip` does not fail with
NotFound/StateError: it succeeds, leaves the store unchanged, and still
notifies the buyer with the default reason. -/
theorem C7_counterexample :
    submittedCount approvedOnlyStore 1 "vip" = 0 ∧
    rejectPayment [9] 9 approvedOnlyStore 1 "vip" none
      = (approvedOnlyStore, RejectOutcome.rejectedOk,
         [Event.rejectedNotice 1 "Payment verification failed"]) := by
  decide

/-- Claim C8, counterexample: the inputs "0" and "-5" parse as numbers, so
`add_channel_price` stores them and advances to `CHANNEL_DEMO` instead of the
claimed re-prompt in `CHANNEL_PRICE`. -/
theorem C8_counterexample :
    (addChannelPrice
        { channelName := some "VIP Content", channelPrice := none,
          channelDemo := none } "0").2 = ConvState.channelDemo ∧
    (addChannelPrice
        { channelName := some "VIP Content", channelPrice := none,
          channelDemo := none } "0").2 ≠ ConvState.channelPrice ∧
    (addChannelPrice
        { channelName := some "VIP Content", channelPrice := none,
          channelDemo := none } "-5").2 = ConvState.channelDemo := by
  decide

/-! ### Supporting lemmas -/

/-- Stripping the `purchase_` action prefix recovers the exact plan key, even
when the key itself contains underscores. -/
theorem purchasePlanData_append (k : String) :
    purchasePlanData ("purchase_" ++ k) = k := by
  obtain ⟨cs⟩ := k
  show String.mk (afterFirstSep '_'
      (String.toList ("purchase_" ++ String.mk cs))) = String.mk cs
  have h : String.toList ("purchase_" ++ String.mk cs)
      = 'p' :: 'u' :: 'r' :: 'c' :: 'h' :: 'a' :: 's' :: 'e' :: '_' :: cs := rfl
  rw [h]
  simp +decide [afterFirstSep]

/-- Record updates that leave `channels` alone leave `lookupChannel` alone. -/
theorem lookupChannel_set_pendings (st : Store) (pp : List PendingPayment)
    (k : String) :
    lookupChannel { st with pendingPayments := pp } k = lookupChannel st k :=
  rfl

/-- `initiate_purchase` on a still-active channel key inserts exactly one
`pending` row and records the awaiting-payment marker. -/
theorem initiatePurchase_channel (st : Store) (sess : Session) (now u : ℕ)
    (k : String) (c : Channel) (hk : ¬k = "server_premium")
    (hc : lookupChannel st k = some c) :
    initiatePurchase st sess now u ("purchase_" ++ k)
      = ({ st with pendingPayments := st.pendingPayments ++
            [{ userId := u, channelKey := k, amount := c.price,
               paymentProof := none, timestamp := now,
               status := PayStatus.pending }] },
         { awaitingPayment := some k },
         PurchaseOutcome.paymentInstructions c.channelName c.price) := by
  simp [initiatePurchase, purchasePlanData_append, hk, hc]

/-- `initiate_purchase` of the server-premium plan inserts exactly one
`pending` row priced from the active plan and records the marker. -/
theorem initiatePurchase_server (st : Store) (sess : Session) (now u : ℕ)
    (p : ServerPlan) (hp : activeServerPlan st = some p) :
    initiatePurchase st sess now u "purchase_server_premium"
      = ({ st with pendingPayments := st.pendingPayments ++
            [{ userId := u, channelKey := "server_premium", amount := p.price,
               paymentProof := none, timestamp := now,
               status := PayStatus.pending }] },
         { awaitingPayment := some "server_premium" },
         PurchaseOutcome.paymentInstructions p.planName p.price) := by
  have hdata : purchasePlanData "purchase_server_premium" = "server_premium" :=
    rfl
  simp [initiatePurchase, hdata, hp]

/-- `handle_payment_proof` with a recorded marker for a still-valid plan
promotes the pending rows and clears the marker. -/
theorem handlePaymentProof_submit (adminIds : List ℕ) (st : Store) (u : ℕ)
    (k : String) (att : ProofAttachment)
    (hok : k = "server_premium" ∨ (lookupChannel st k).isSome) :
    handlePaymentProof adminIds st { awaitingPayment := some k } u att
      = ({ st with pendingPayments :=
            submitProofRows st.pendingPayments u k att.fileId },
         { awaitingPayment := none },
         Event.proofAcceptedReply ::
           adminIds.map (fun a => Event.adminProofNotice a u k)) := by
  simp [handlePaymentProof, hok]

/-- Filtering commutes with a map whose function does not change the value of
the filter predicate. -/
theorem filter_map_of_pred_fixed {α : Type} (f : α → α) (p : α → Bool)
    (hf : ∀ a, p (f a) = p a) (l : List α) :
    (l.map f).filter p = (l.filter p).map f := by
  induction l with
  | nil => rfl
  | cons a t ih =>
    simp only [List.map_cons, List.filter_cons, hf a]
    cases hp : p a <;> simp [ih]

/-- Promoting the `pending` rows of `(u, k)` to `submitted` makes the number
of `submitted` rows for `(u, k)` the old `submitted` count plus the old
`pending` count. -/
theorem submitProofRows_submitted_length (l : List PendingPayment) (u : ℕ)
    (k fid : String) :
    ((submitProofRows l u k fid).filter (fun p =>
        p.userId == u && p.channelKey == k &&
          p.status == PayStatus.submitted)).length
      = (l.filter (fun p => p.userId == u && p.channelKey == k &&
            p.status == PayStatus.submitted)).length
        + (l.filter (fun p => p.userId == u && p.channelKey == k &&
            p.status == PayStatus.pending)).length := by
  induction l with
  | nil => rfl
  | cons a t ih =>
    simp only [submitProofRows, List.map_cons, List.filter_cons] at ih ⊢
    by_cases hu : a.userId = u <;> by_cases hk : a.channelKey = k <;>
      cases hs : a.status <;>
        simp [hu, hk, hs, ih, submitProofRows] <;> omega

/-- Rewriting the `submitted` rows of `(u, k)` to `rejected` leaves no
`submitted` row for `(u, k)`. -/
theorem rejectSubmittedRows_none_left (l : List PendingPayment) (u : ℕ)
    (k : String) :
    ((rejectSubmittedRows l u k).filter (fun p =>
        p.userId == u && p.channelKey == k &&
          p.status == PayStatus.submitted)).length = 0 := by
  induction l with
  | nil => rfl
  | cons a t ih =>
    simp only [rejectSubmittedRows, List.map_cons, List.filter_cons] at ih ⊢
    by_cases hu : a.userId = u <;> by_cases hk : a.channelKey = k <;>
      cases hs : a.status <;>
        simp [hu, hk, hs, ih, rejectSubmittedRows]

/-- `send_invoice_with_links` only ever rewrites subscription rows in place
(possibly switching `invoice_sent` on), never changing user, plan, dates or
the confirmation flag, and never adding or removing rows. -/
theorem sendInvoice_subscriptions (st : Store) (sendOk : Bool) (uid : ℕ)
    (pk : String) :
    ∃ f : Subscription → Subscription,
      (∀ s, (f s).startDate = s.startDate ∧ (f s).endDate = s.endDate ∧
          (f s).paymentConfirmed = s.paymentConfirmed ∧
          (f s).userId = s.userId ∧ (f s).channelKey = s.channelKey) ∧
      (sendInvoiceWithLinks st sendOk uid pk).1.subscriptions
        = st.subscriptions.map f := by
  by_cases hok : (if pk = "server_premium" then (activeServerPlan st).isSome
      else (lookupChannel st pk).isSome) = true
  · by_cases hsend : sendOk = true
    · refine ⟨fun s => if s.userId = uid ∧ s.channelKey = pk ∧ s.isActive
          then { s with invoiceSent := true } else s, ?_, ?_⟩
      · intro s
        dsimp only
        split <;> exact ⟨rfl, rfl, rfl, rfl, rfl⟩
      · simp [sendInvoiceWithLinks, hok, hsend]
    · refine ⟨id, fun s => ⟨rfl, rfl, rfl, rfl, rfl⟩, ?_⟩
      simp [sendInvoiceWithLinks, hok, hsend]
  · refine ⟨id, fun s => ⟨rfl, rfl, rfl, rfl, rfl⟩, ?_⟩
    simp [sendInvoiceWithLinks, hok]

/-- The `subsFor` view of `send_invoice_with_links`: the rows for any
`(u, k)` afterwards are the rows before, mapped by a function that keeps
dates and the confirmation flag. -/
theorem sendInvoice_subsFor (st : Store) (sendOk : Bool) (uid : ℕ)
    (pk : String) (u : ℕ) (k : String) :
    ∃ f : Subscription → Subscription,
      (∀ s, (f s).startDate = s.startDate ∧ (f s).endDate = s.endDate ∧
          (f s).paymentConfirmed = s.paymentConfirmed) ∧
      subsFor (sendInvoiceWithLinks st sendOk uid pk).1 u k
        = (subsFor st u k).map f := by
  obtain ⟨f, hf, hsubs⟩ := sendInvoice_subscriptions st sendOk uid pk
  refine ⟨f, fun s => ⟨(hf s).1, (hf s).2.1, (hf s).2.2.1⟩, ?_⟩
  unfold subsFor
  rw [hsubs, filter_map_of_pred_fixed]
  intro a
  rw [(hf a).2.2.2.1, (hf a).2.2.2.2]

/-- Behaviour of `approve_payment` on any existing offer, with no assumption
at all about pending payments: it answers `approved`, and the subscription
rows for `(u, k)` afterwards are exactly the old ones plus one fresh row
`(u, k, now, now + 30 days, active, confirmed)` — each possibly with
`invoice_sent` switched on by the invoice step. -/
theorem approvePayment_spec (adminIds : List ℕ) (actor : ℕ) (st : Store)
    (grantFails : String → Bool) (sendOk : Bool) (now u : ℕ) (k : String)
    (hadm : actor ∈ adminIds) (hoffer : offerExists st k = true) :
    ∃ (f : Subscription → Subscription) (g : List (String × Bool)),
      (∀ s, (f s).startDate = s.startDate ∧ (f s).endDate = s.endDate ∧
          (f s).paymentConfirmed = s.paymentConfirmed) ∧
      (approvePayment adminIds actor st grantFails sendOk now u k).2
        = ApproveOutcome.approved g ∧
      subsFor (approvePayment adminIds actor st grantFails sendOk now u k).1
          u k
        = (subsFor st u k).map f ++
            [f { userId := u, channelKey := k, startDate := now,
                 endDate := now + thirtyDays, isActive := true,
                 paymentConfirmed := true, invoiceSent := false }] := by
  by_cases hk : k = "server_premium"
  · subst hk
    rw [offerExists, if_pos rfl] at hoffer
    obtain ⟨p, hp⟩ := Option.isSome_iff_exists.mp hoffer
    obtain ⟨f, hf, hsubs⟩ := sendInvoice_subsFor
      { st with
        subscriptions := st.subscriptions ++
          [{ userId := u, channelKey := "server_premium", startDate := now,
             endDate := now + thirtyDays, isActive := true,
             paymentConfirmed := true, invoiceSent := false }],
        pendingPayments :=
          approveSubmittedRows st.pendingPayments u "server_premium" }
      sendOk u "server_premium" u "server_premium"
    refine ⟨f, (activeChannels st).map
      (fun c => (c.channelKey, !grantFails c.channelKey)), hf, ?_, ?_⟩
    · simp [approvePayment, hadm, hp, activeChannels]
    · have hfst : (approvePayment adminIds actor st grantFails sendOk now u
          "server_premium").1
          = (sendInvoiceWithLinks
              { st with
                subscriptions := st.subscriptions ++
                  [{ userId := u, channelKey := "server_premium",
                     startDate := now, endDate := now + thirtyDays,
                     isActive := true, paymentConfirmed := true,
                     invoiceSent := false }],
                pendingPayments :=
                  approveSubmittedRows st.pendingPayments u
                    "server_premium" }
              sendOk u "server_premium").1 := by
        simp [approvePayment, hadm, hp]
      rw [hfst, hsubs]
      simp [subsFor, List.filter_append]
  · rw [offerExists, if_neg hk] at hoffer
    obtain ⟨c, hc⟩ := Option.isSome_iff_exists.mp hoffer
    obtain ⟨f, hf, hsubs⟩ := sendInvoice_subsFor
      { st with
        subscriptions := st.subscriptions ++
          [{ userId := u, channelKey := k, startDate := now,
             endDate := now + thirtyDays, isActive := true,
             paymentConfirmed := true, invoiceSent := false }],
        pendingPayments := approveSubmittedRows st.pendingPayments u k }
      sendOk u k u k
    refine ⟨f, [(c.channelKey, !grantFails c.channelKey)], hf, ?_, ?_⟩
    · simp [approvePayment, hadm, hk, hc]
    · have hfst : (approvePayment adminIds actor st grantFails sendOk now u
          k).1
          = (sendInvoiceWithLinks
              { st with
                subscriptions := st.subscriptions ++
                  [{ userId := u, channelKey := k, startDate := now,
                     endDate := now + thirtyDays, isActive := true,
                     paymentConfirmed := true, invoiceSent := false }],
                pendingPayments := approveSubmittedRows st.pendingPayments u k }
              sendOk u k).1 := by
        simp [approvePayment, hadm, hk, hc]
      rw [hfst, hsubs]
      simp [subsFor, List.filter_append]

/-- `initiate_purchase` on any existing offer appends exactly one fresh
`pending` payment row for `(u, k)` and records the awaiting-payment marker. -/
theorem initiatePurchase_offer (st : Store) (sess : Session) (now u : ℕ)
    (k : String) (hoffer : offerExists st k = true) :
    ∃ (pay : PendingPayment) (out : PurchaseOutcome),
      pay.userId = u ∧ pay.channelKey = k ∧ pay.status = PayStatus.pending ∧
      initiatePurchase st sess now u ("purchase_" ++ k)
        = ({ st with pendingPayments := st.pendingPayments ++ [pay] },
           { awaitingPayment := some k }, out) := by
  by_cases hk : k = "server_premium"
  · subst hk
    rw [offerExists, if_pos rfl] at hoffer
    obtain ⟨p, hp⟩ := Option.isSome_iff_exists.mp hoffer
    exact ⟨{ userId := u, channelKey := "server_premium", amount := p.price,
             paymentProof := none, timestamp := now,
             status := PayStatus.pending },
           PurchaseOutcome.paymentInstructions p.planName p.price,
           rfl, rfl, rfl, initiatePurchase_server st sess now u p hp⟩
  · rw [offerExists, if_neg hk] at hoffer
    obtain ⟨c, hc⟩ := Option.isSome_iff_exists.mp hoffer
    exact ⟨{ userId := u, channelKey := k, amount := c.price,
             paymentProof := none, timestamp := now,
             status := PayStatus.pending },
           PurchaseOutcome.paymentInstructions c.channelName c.price,
           rfl, rfl, rfl, initiatePurchase_channel st sess now u k c hk hc⟩

/-! ### Claim theorems -/

/-- Claim C1, amended: `approve_payment` performs no pending-payment status
check — whenever the actor is an admin and the plan key names an existing
offer, approval reports success and inserts one fresh Subscription row,
regardless of any PendingPayment status; hence re-running approval for an
already-approved payment succeeds again and adds a second Subscription (the
`status = 'submitted'` update just matches zero rows). -/
theorem C1_approve_always_inserts (adminIds : List ℕ) (actor : ℕ) (st : Store)
    (grantFails : String → Bool) (sendOk : Bool) (now u : ℕ) (k : String)
    (hadm : actor ∈ adminIds) (hoffer : offerExists st k = true) :
    ∃ g, (approvePayment adminIds actor st grantFails sendOk now u k).2
        = ApproveOutcome.approved g ∧
      (subsFor (approvePayment adminIds actor st grantFails sendOk now u k).1
          u k).length = (subsFor st u k).length + 1 := by
  obtain ⟨f, g, hf, hout, hsubs⟩ :=
    approvePayment_spec adminIds actor st grantFails sendOk now u k hadm hoffer
  exact ⟨g, hout, by rw [hsubs]; simp⟩

/-- Witness for C1: the amended theorem applied to the second `/approve 1 vip`
run, on the state in which the payment is already approved. -/
theorem C1_approve_always_inserts_witness :
    ∃ g, (approvePayment [9] 9 c1AfterFirstApprove.1 (fun _ => false) true 30
        1 "vip").2 = ApproveOutcome.approved g ∧
      (subsFor (approvePayment [9] 9 c1AfterFirstApprove.1 (fun _ => false)
          true 30 1 "vip").1 1 "vip").length
        = (subsFor c1AfterFirstApprove.1 1 "vip").length + 1 :=
  C1_approve_always_inserts [9] 9 c1AfterFirstApprove.1 (fun _ => false) true
    30 1 "vip" (by decide) (by decide)

/-- Claim C3, amended: the buyer-facing listing holds one offer per active
channel in creation order followed by the synthetic server-premium
(all-access) offer when the plan is active — but only when at least one
active channel exists; with zero active channels the listing is empty
regardless of the plan's flag (in particular when the plan is inactive). -/
theorem C3_listing (st : Store) :
    (activeChannels st = [] → showPlansOffers st = []) ∧
    (activeChannels st ≠ [] →
      showPlansOffers st
        = (activeChannels st).map channelOffer ++
            (match activeServerPlan st with
             | some p => [serverPremiumOffer p]
             | none => [])) := by
  constructor
  · intro h
    simp [showPlansOffers, h]
  · intro h
    simp [showPlansOffers, keyboardOffers, List.isEmpty_iff, h]

/-- Witness for C3: the amended theorem applied to a one-channel store with
the plan active, and to the zero-channel store. -/
theorem C3_listing_witness :
    showPlansOffers baseStore
      = [channelOffer simpleChannel, serverPremiumOffer defaultServerPlan] ∧
    showPlansOffers noChannelStore = [] := by
  constructor
  · have h := (C3_listing baseStore).2 (by decide)
    rw [h]
    decide
  · exact (C3_listing noChannelStore).1 (by decide)

/-- Claim C4: for every offer, checkout → proof submission → approval turns a
state with no Subscription for `(user, plan)` into one with exactly one, and
that row has `end_date = start_date + 30 days` and
`payment_confirmed = true`. -/
theorem C4_lifecycle (adminIds : List ℕ) (admin : ℕ) (st0 : Store)
    (sess0 : Session) (grantFails : String → Bool) (sendOk : Bool)
    (now1 now2 u : ℕ) (k fid : String)
    (hadm : admin ∈ adminIds) (hoffer : offerExists st0 k = true)
    (hnone : subsFor st0 u k = []) :
    ∃ s : Subscription,
      subsFor (approvePayment adminIds admin
          (handlePaymentProof adminIds
              (initiatePurchase st0 sess0 now1 u ("purchase_" ++ k)).1
              (initiatePurchase st0 sess0 now1 u ("purchase_" ++ k)).2.1
              u (ProofAttachment.photo fid)).1
          grantFails sendOk now2 u k).1 u k
        = [s] ∧
      s.endDate = s.startDate + thirtyDays ∧ s.paymentConfirmed = true := by
  obtain ⟨pay, out, hpu, hpk, hps, heq⟩ :=
    initiatePurchase_offer st0 sess0 now1 u k hoffer
  rw [heq]
  have hok : k = "server_premium" ∨
      (lookupChannel { st0 with
        pendingPayments := st0.pendingPayments ++ [pay] } k).isSome := by
    by_cases hk : k = "server_premium"
    · exact Or.inl hk
    · right
      rw [lookupChannel_set_pendings]
      rw [offerExists, if_neg hk] at hoffer
      exact hoffer
  rw [handlePaymentProof_submit adminIds _ u k (ProofAttachment.photo fid) hok]
  obtain ⟨f, g, hf, hout, hsubs⟩ := approvePayment_spec adminIds admin
    { st0 with pendingPayments :=
        (submitProofRows (st0.pendingPayments ++ [pay]) u k
          (ProofAttachment.photo fid).fileId) }
    grantFails sendOk now2 u k hadm hoffer
  rw [hsubs]
  have h0 : subsFor
      { st0 with pendingPayments :=
          (submitProofRows (st0.pendingPayments ++ [pay]) u k
            (ProofAttachment.photo fid).fileId) } u k = [] := hnone
  rw [h0]
  refine ⟨f (Subscription.mk u k now2 (now2 + thirtyDays) true true false),
    by simp, ?_, ?_⟩
  · rw [(hf _).2.1, (hf _).1]
  · rw [(hf _).2.2]

/-- Witness for C4: the lifecycle theorem applied to user 1 buying the `vip`
channel of `baseStore`. -/
theorem C4_lifecycle_witness :
    ∃ s : Subscription,
      subsFor (approvePayment [9] 9
          (handlePaymentProof [9]
              (initiatePurchase baseStore { awaitingPayment := none } 10 1
                ("purchase_" ++ "vip")).1
              (initiatePurchase baseStore { awaitingPayment := none } 10 1
                ("purchase_" ++ "vip")).2.1
              1 (ProofAttachment.photo "proof1")).1
          (fun _ => false) true 20 1 "vip").1 1 "vip"
        = [s] ∧
      s.endDate = s.startDate + thirtyDays ∧ s.paymentConfirmed = true :=
  C4_lifecycle [9] 9 baseStore { awaitingPayment := none } (fun _ => false)
    true 10 20 1 "vip" "proof1" (by decide) (by decide) (by decide)

/-- Claim C5, amended: checkout and proof submission do not enforce the
at-most-one-submitted invariant — each checkout inserts another `pending` row
and a single proof submission promotes every `pending` row for the pair, so
two checkouts for the same plan followed by one proof submission leave two
`submitted` rows for the same `(user, plan)`. -/
theorem C5_two_submitted_rows (adminIds : List ℕ) (st : Store)
    (sess : Session) (now1 now2 u : ℕ) (k fid : String)
    (hoffer : offerExists st k = true)
    (hsubm : submittedCount st u k = 0) (hpend : pendingCount st u k = 0) :
    submittedCount
      (handlePaymentProof adminIds
        (initiatePurchase
          (initiatePurchase st sess now1 u ("purchase_" ++ k)).1
          (initiatePurchase st sess now1 u ("purchase_" ++ k)).2.1
          now2 u ("purchase_" ++ k)).1
        (initiatePurchase
          (initiatePurchase st sess now1 u ("purchase_" ++ k)).1
          (initiatePurchase st sess now1 u ("purchase_" ++ k)).2.1
          now2 u ("purchase_" ++ k)).2.1
        u (ProofAttachment.photo fid)).1 u k = 2 := by
  obtain ⟨pay1, out1, hp1u, hp1k, hp1s, heq1⟩ :=
    initiatePurchase_offer st sess now1 u k hoffer
  rw [heq1]
  have hoffer2 : offerExists
      { st with pendingPayments := st.pendingPayments ++ [pay1] } k = true :=
    hoffer
  obtain ⟨pay2, out2, hp2u, hp2k, hp2s, heq2⟩ :=
    initiatePurchase_offer
      { st with pendingPayments := st.pendingPayments ++ [pay1] }
      { awaitingPayment := some k } now2 u k hoffer2
  rw [heq2]
  have hok : k = "server_premium" ∨
      (lookupChannel { st with pendingPayments :=
        (st.pendingPayments ++ [pay1]) ++ [pay2] } k).isSome := by
    by_cases hk : k = "server_premium"
    · exact Or.inl hk
    · right
      rw [lookupChannel_set_pendings]
      rw [offerExists, if_neg hk] at hoffer
      exact hoffer
  rw [handlePaymentProof_submit adminIds _ u k (ProofAttachment.photo fid) hok]
  rw [submittedCount] at hsubm ⊢
  rw [pendingCount] at hpend
  rw [submitProofRows_submitted_length]
  simp [List.filter_append, hsubm, hpend, hp1u, hp1k, hp1s, hp2u, hp2k, hp2s]

/-- Witness for C5: the amended theorem applied to user 1 checking the `vip`
channel of `baseStore` out twice and then submitting one screenshot. -/
theorem C5_two_submitted_rows_witness :
    submittedCount
      (handlePaymentProof [9]
        (initiatePurchase
          (initiatePurchase baseStore { awaitingPayment := none } 10 1
            ("purchase_" ++ "vip")).1
          (initiatePurchase baseStore { awaitingPayment := none } 10 1
            ("purchase_" ++ "vip")).2.1
          11 1 ("purchase_" ++ "vip")).1
        (initiatePurchase
          (initiatePurchase baseStore { awaitingPayment := none } 10 1
            ("purchase_" ++ "vip")).1
          (initiatePurchase baseStore { awaitingPayment := none } 10 1
            ("purchase_" ++ "vip")).2.1
          11 1 ("purchase_" ++ "vip")).2.1
        1 (ProofAttachment.photo "p")).1 1 "vip" = 2 :=
  C5_two_submitted_rows [9] baseStore { awaitingPayment := none } 10 11 1
    "vip" "p" (by decide) (by decide) (by decide)

/-- Claim C6: a valid `(name, price > 0)` onboarding run that receives a
valid channel forward creates exactly one Channel row keyed
`normalize(name)` (lowercase, spaces and hyphens to underscores); a second
run with the same name hits the UNIQUE constraint, reports the collision,
and changes nothing. -/
theorem C6_onboarding_unique (st : Store) (now1 now2 actor : ℕ)
    (name demo url1 url2 : String) (price : ℚ) (chat1 chat2 : Int)
    (hprice : 0 < price) (h0 : channelKeyCount st (channelKeyOf name) = 0) :
    (∃ c, (onboardOnce st now1 actor name price demo chat1 url1).2.1
        = ForwardResult.created c ∧ c.channelKey = channelKeyOf name) ∧
    channelKeyCount (onboardOnce st now1 actor name price demo chat1 url1).1
        (channelKeyOf name) = 1 ∧
    (onboardOnce (onboardOnce st now1 actor name price demo chat1 url1).1
        now2 actor name price demo chat2 url2).2.1
      = ForwardResult.duplicateKey (channelKeyOf name) ∧
    (onboardOnce (onboardOnce st now1 actor name price demo chat1 url1).1
        now2 actor name price demo chat2 url2).1
      = (onboardOnce st now1 actor name price demo chat1 url1).1 := by
  have hany : st.channels.any
      (fun c => c.channelKey == channelKeyOf name) = false := by
    rw [List.any_eq_false]
    intro c hc hpc
    rw [channelKeyCount, List.length_eq_zero] at h0
    have hcmem : c ∈ st.channels.filter
        (fun c => c.channelKey == channelKeyOf name) :=
      List.mem_filter.mpr ⟨hc, hpc⟩
    simp [h0] at hcmem
  have h1 : onboardOnce st now1 actor name price demo chat1 url1
      = ({ st with channels := st.channels ++
            [Channel.mk (channelKeyOf name) name (toString chat1) price demo
              url1 true now1 actor] },
         ForwardResult.created (Channel.mk (channelKeyOf name) name
           (toString chat1) price demo url1 true now1 actor),
         ConvState.ended) := by
    simp [onboardOnce, addChannelForward, hany]
  have hany2 : (st.channels ++
      [Channel.mk (channelKeyOf name) name (toString chat1) price demo url1
        true now1 actor]).any
      (fun c => c.channelKey == channelKeyOf name) = true := by
    simp
  have h2 : onboardOnce
      { st with channels := st.channels ++
          [Channel.mk (channelKeyOf name) name (toString chat1) price demo
            url1 true now1 actor] }
      now2 actor name price demo chat2 url2
      = ({ st with channels := st.channels ++
            [Channel.mk (channelKeyOf name) name (toString chat1) price demo
              url1 true now1 actor] },
         ForwardResult.duplicateKey (channelKeyOf name),
         ConvState.ended) := by
    simp [onboardOnce, addChannelForward, hany2]
  rw [h1, h2]
  refine ⟨⟨_, rfl, rfl⟩, ?_, rfl, rfl⟩
  rw [channelKeyCount] at h0 ⊢
  simp [List.filter_append, h0]

/-- Witness for C6: the onboarding theorem applied to "VIP Content" priced
200 against the zero-channel store — the derived key is `vip_content`. -/
theorem C6_onboarding_unique_witness :
    (∃ c, (onboardOnce noChannelStore 5 9 "VIP Content" 200 "" (-100)
        "inv1").2.1
        = ForwardResult.created c ∧
          c.channelKey = channelKeyOf "VIP Content") ∧
    channelKeyCount (onboardOnce noChannelStore 5 9 "VIP Content" 200 ""
        (-100) "inv1").1 (channelKeyOf "VIP Content") = 1 ∧
    (onboardOnce (onboardOnce noChannelStore 5 9 "VIP Content" 200 "" (-100)
        "inv1").1 6 9 "VIP Content" 200 "" (-102) "inv2").2.1
      = ForwardResult.duplicateKey (channelKeyOf "VIP Content") ∧
    (onboardOnce (onboardOnce noChannelStore 5 9 "VIP Content" 200 "" (-100)
        "inv1").1 6 9 "VIP Content" 200 "" (-102) "inv2").1
      = (onboardOnce noChannelStore 5 9 "VIP Content" 200 "" (-100) "inv1").1 :=
  C6_onboarding_unique noChannelStore 5 6 9 "VIP Content" "" "inv1" "inv2"
    200 (-100) (-102) (by decide) (by decide)

/-- Claim C7, amended: `reject_payment` never verifies that a matching
`submitted` payment exists — it always reports success; it rewrites exactly
the `submitted` rows of `(user, plan)` to `rejected` (zero matches is a
silent no-op), creates no Subscription, and notifies the buyer with the
given reason or the default "Payment verification failed". -/
theorem C7_reject_behaviour (adminIds : List ℕ) (actor : ℕ) (st : Store)
    (u : ℕ) (k : String) (reason : Option String) (hadm : actor ∈ adminIds) :
    ((rejectPayment adminIds actor st u k reason).1.subscriptions
        = st.subscriptions) ∧
    submittedCount (rejectPayment adminIds actor st u k reason).1 u k = 0 ∧
    (∀ p ∈ st.pendingPayments,
      p.userId = u → p.channelKey = k → p.status = PayStatus.submitted →
        { p with status := PayStatus.rejected }
          ∈ (rejectPayment adminIds actor st u k reason).1.pendingPayments) ∧
    (rejectPayment adminIds actor st u k reason).2.1
      = RejectOutcome.rejectedOk ∧
    (rejectPayment adminIds actor st u k reason).2.2
      = [Event.rejectedNotice u
          (reason.getD "Payment verification failed")] := by
  have heq : rejectPayment adminIds actor st u k reason
      = ({ st with pendingPayments :=
            rejectSubmittedRows st.pendingPayments u k },
         RejectOutcome.rejectedOk,
         [Event.rejectedNotice u
           (reason.getD "Payment verification failed")]) := by
    simp [rejectPayment, hadm]
  rw [heq]
  refine ⟨rfl, ?_, ?_, rfl, rfl⟩
  · exact rejectSubmittedRows_none_left st.pendingPayments u k
  · intro p hp hpu hpk hps
    have hfp : (fun q => if q.userId = u ∧ q.channelKey = k ∧
          q.status = PayStatus.submitted
        then { q with status := PayStatus.rejected } else q) p
        = { p with status := PayStatus.rejected } := by
      dsimp only
      rw [if_pos ⟨hpu, hpk, hps⟩]
    rw [← hfp]
    exact List.mem_map_of_mem _ hp

/-- Witness for C7: the amended theorem applied to the store whose only
matching payment is already `approved`, with an explicit reason given. -/
theorem C7_reject_behaviour_witness :
    (rejectPayment [9] 9 approvedOnlyStore 1 "vip"
        (some "Blurry screenshot")).1.subscriptions
      = approvedOnlyStore.subscriptions ∧
    submittedCount (rejectPayment [9] 9 approvedOnlyStore 1 "vip"
        (some "Blurry screenshot")).1 1 "vip" = 0 ∧
    (rejectPayment [9] 9 approvedOnlyStore 1 "vip"
        (some "Blurry screenshot")).2.1 = RejectOutcome.rejectedOk ∧
    (rejectPayment [9] 9 approvedOnlyStore 1 "vip"
        (some "Blurry screenshot")).2.2
      = [Event.rejectedNotice 1 "Blurry screenshot"] := by
  obtain ⟨h1, h2, h3, h4, h5⟩ := C7_reject_behaviour [9] 9 approvedOnlyStore
    1 "vip" (some "Blurry screenshot") (by decide)
  exact ⟨h1, h2, h4, h5⟩

/-- Claim C8, amended: in `CHANNEL_PRICE` every input that fails to parse as
a number re-prompts and stays in `CHANNEL_PRICE`, while every input that
parses — positive, zero or negative alike — is stored and advances to
`CHANNEL_DEMO`; there is no positivity check. -/
theorem C8_price_gate (ud : UserData) (text : String) :
    (pyFloat (pyStrip text) = none →
      addChannelPrice ud text = (ud, ConvState.channelPrice)) ∧
    ∀ q : ℚ, pyFloat (pyStrip text) = some q →
      addChannelPrice ud text
        = ({ ud with channelPrice := some q }, ConvState.channelDemo) := by
  constructor
  · intro h
    simp [addChannelPrice, h]
  · intro q h
    simp [addChannelPrice, h]

/-- Witness for C8: the gate theorem applied to the non-numeric input "abc"
(re-prompt) and to the numeric input "0" (advances despite not being
positive). -/
theorem C8_price_gate_witness :
    addChannelPrice
        { channelName := some "VIP Content", channelPrice := none,
          channelDemo := none } "abc"
      = ({ channelName := some "VIP Content", channelPrice := none,
           channelDemo := none }, ConvState.channelPrice) ∧
    addChannelPrice
        { channelName := some "VIP Content", channelPrice := none,
          channelDemo := none } "0"
      = ({ channelName := some "VIP Content", channelPrice := some 0,
           channelDemo := none }, ConvState.channelDemo) :=
  ⟨(C8_price_gate
      { channelName := some "VIP Content", channelPrice := none,
        channelDemo := none } "abc").1 (by decide),
   (C8_price_gate
      { channelName := some "VIP Content", channelPrice := none,
        channelDemo := none } "0").2 0 (by decide)⟩

/-- Claim C9: approving an all-access purchase attempts the membership grant
for every active channel in order — even when the grant for one channel
raises, the others are still attempted and recorded as succeeded, and the
approval itself completes, inserting the confirmed subscription. -/
theorem C9_grant_loop (adminIds : List ℕ) (actor : ℕ) (st : Store)
    (grantFails : String → Bool) (sendOk : Bool) (now u : ℕ)
    (hadm : actor ∈ adminIds) (hplan : (activeServerPlan st).isSome = true)
    (htwo : 2 ≤ (activeChannels st).length) (c : Channel)
    (hc : c ∈ activeChannels st) (hfail : grantFails c.channelKey = true) :
    (approvePayment adminIds actor st grantFails sendOk now u
        "server_premium").2
      = ApproveOutcome.approved ((activeChannels st).map
          (fun ch => (ch.channelKey, !grantFails ch.channelKey))) ∧
    (∀ ch ∈ activeChannels st, grantFails ch.channelKey = false →
      (ch.channelKey, true) ∈ (activeChannels st).map
        (fun ch => (ch.channelKey, !grantFails ch.channelKey))) ∧
    ∃ s ∈ (approvePayment adminIds actor st grantFails sendOk now u
        "server_premium").1.subscriptions,
      s.userId = u ∧ s.channelKey = "server_premium" ∧
        s.paymentConfirmed = true := by
  obtain ⟨p, hp⟩ := Option.isSome_iff_exists.mp hplan
  refine ⟨?_, ?_, ?_⟩
  · simp [approvePayment, hadm, hp, activeChannels]
  · intro ch hch hok
    exact List.mem_map.mpr ⟨ch, hch, by simp [hok]⟩
  · have hoffer : offerExists st "server_premium" = true := by
      rw [offerExists, if_pos rfl]
      exact hplan
    obtain ⟨f, g, hf, hout, hsubs⟩ := approvePayment_spec adminIds actor st
      grantFails sendOk now u "server_premium" hadm hoffer
    have hmem : f (Subscription.mk u "server_premium" now (now + thirtyDays)
        true true false)
        ∈ subsFor (approvePayment adminIds actor st grantFails sendOk now u
            "server_premium").1 u "server_premium" := by
      rw [hsubs]
      exact List.mem_append_right _ (List.mem_singleton_self _)
    unfold subsFor at hmem
    have hmem2 := List.mem_filter.mp hmem
    refine ⟨_, hmem2.1, ?_, ?_, ?_⟩
    · have hb := hmem2.2
      simp only [Bool.and_eq_true, beq_iff_eq] at hb
      exact hb.1
    · have hb := hmem2.2
      simp only [Bool.and_eq_true, beq_iff_eq] at hb
      exact hb.2
    · rw [(hf _).2.2]

/-- Witness for C9: the grant-loop theorem applied to the two-channel store
with the `alpha` grant failing: both channels appear in the grant record,
`beta` as succeeded, and the subscription is inserted. -/
theorem C9_grant_loop_witness :
    (approvePayment [9] 9 twoChannelStore (fun s => s == "alpha") true 20 1
        "server_premium").2
      = ApproveOutcome.approved [("alpha", false), ("beta", true)] ∧
    ∃ s ∈ (approvePayment [9] 9 twoChannelStore (fun s => s == "alpha") true
        20 1 "server_premium").1.subscriptions,
      s.userId = 1 ∧ s.channelKey = "server_premium" ∧
        s.paymentConfirmed = true := by
  obtain ⟨h1, h2, h3⟩ := C9_grant_loop [9] 9 twoChannelStore
    (fun s => s == "alpha") true 20 1 (by decide) (by decide) (by decide)
    alphaChannel (by decide) (by decide)
  refine ⟨?_, h3⟩
  rw [h1]
  decide

/-- Claim C10: a photo or document arriving while the session has no
`'awaiting_payment'` marker is ignored completely — the handler returns with
the store untouched, the session untouched, and no message sent. -/
theorem C10_no_marker_no_effect (adminIds : List ℕ) (st : Store)
    (sess : Session) (userId : ℕ) (att : ProofAttachment)
    (h : sess.awaitingPayment = none) :
    handlePaymentProof adminIds st sess userId att = (st, sess, []) := by
  simp [handlePaymentProof, h]

/-- Witness for C10: the frame theorem applied to a concrete store, an empty
session and a concrete photo. -/
theorem C10_no_marker_no_effect_witness :
    handlePaymentProof [9] baseStore { awaitingPayment := none } 1
        (ProofAttachment.photo "f")
      = (baseStore, { awaitingPayment := none }, []) :=
  C10_no_marker_no_effect [9] baseStore { awaitingPayment := none } 1
    (ProofAttachment.photo "f") rfl

end PremiumBot
